import Mathlib

/-
Shallow embedding of the merge queue tick engine of the bors bot
(src/bors/merge_queue.rs). External, fallible operations (forge and
store calls) are modelled by environments that fix the outcome of each
call site; the engine is a pure function from those environments to an
outcome plus an ordered trace of the forge/store effects it attempted.
-/

deriving instance DecidableEq for Except

namespace Bors

/-- Build status stored in the database (enum BuildStatus). -/
inductive BuildStatus
  | Pending
  | Success
  | Failure
  | Cancelled
  | Timeouted
deriving DecidableEq, Repr

/-- Mergeable state of a PR (enum MergeableState). -/
inductive MergeableState
  | Unknown
  | Mergeable
  | HasConflicts
deriving DecidableEq, Repr

/-- PR status in the store (enum PullRequestStatus); the tick only writes Merged. -/
inductive PullRequestStatus
  | Open
  | Approved
  | Merged
  | Closed
deriving DecidableEq, Repr

/-- Rollup mode of a PR (enum RollupMode in src/bors/command/mod.rs). -/
inductive RollupMode
  | Always
  | Iffy
  | Maybe
  | Never
deriving DecidableEq, Repr

/-- A build row (the fields of the Build model read by the tick engine). -/
structure Build where
  commit_sha : String
  status : BuildStatus
  check_run_id : Option Int
deriving DecidableEq, Repr

/-- The fields of PullRequestModel read by the tick engine. -/
structure PullRequestModel where
  number : Nat
  base_branch : String
  approver : Option String
  priority : Option Nat
  rollup : RollupMode
  title : String
  auto_build : Option Build
deriving DecidableEq, Repr

/-- The fields of the forge pull request (get_pull_request) used by the engine:
head SHA, head label, and the PR body (gh_pr.message). -/
structure GhPullRequest where
  head_sha : String
  head_label : String
  message : String
deriving DecidableEq, Repr

/-- A workflow row from the store, used only to render the success comment. -/
structure Workflow where
  name : String
  url : String
deriving DecidableEq, Repr

/-- A workflow run observed on the forge (get_workflow_runs_for_commit). -/
structure WorkflowRun where
  id : Nat
  status : String
deriving DecidableEq, Repr

/-- Error of set_branch_to_sha (enum BranchUpdateError); the Custom
constructor stands for every variant the tick engine does not match
by name. -/
inductive BranchUpdateError
  | FastForwardConflict (branch : String)
  | ValidationFailed (branch : String) (message : String)
  | Custom (message : String)
deriving DecidableEq, Repr

/-- Error of merge_branches (enum MergeError). -/
inductive MergeError
  | Conflict
  | Other (message : String)
deriving DecidableEq, Repr

/-- Result of the trial merge (enum MergeResult in merge_queue.rs). -/
inductive MergeResult
  | Success (sha : String)
  | Conflict
deriving DecidableEq, Repr

/-- The error produced by attempt_merge before it is wrapped into
AutoBuildStartError::FailedToMerge (the two anyhow error sites). -/
inductive AttemptMergeErr
  | CannotSetAutoMergeBranch (base_sha : String) (e : BranchUpdateError)
  | MergeFailed (message : String)
deriving DecidableEq, Repr

/-- enum AutoBuildStartError of merge_queue.rs. -/
inductive AutoBuildStartError
  | FailedToMerge (e : AttemptMergeErr)
  | MergeConflicts (message : String)
  | FailedToMarkAsConflicted (message : String)
  | FailedToPush (merge_sha : String) (e : BranchUpdateError)
  | FailedToRecordBuild (merge_sha : String) (message : String)
deriving DecidableEq, Repr

/-- ForcePush flag of set_branch_to_sha. -/
inductive ForcePush
  | Yes
  | No
deriving DecidableEq, Repr

/-- Check run status values used by the engine. -/
inductive CheckRunStatus
  | InProgress
  | Completed
deriving DecidableEq, Repr

/-- Check run conclusion values used by the engine. -/
inductive CheckRunConclusion
  | Failure
deriving DecidableEq, Repr

/-- The comments the tick engine posts, as symbolic constructors carrying
exactly the arguments the source passes to the renderer in
src/bors/comment.rs (the renderer itself is outside the tick engine). -/
inductive Comment
  | AutoBuildSucceeded (workflows : List Workflow) (approver : String)
      (merge_sha : String) (base_branch : String)
  | AutoBuildPushFailed (error : BranchUpdateError)
  | AutoBuildStarted (head_sha : String) (merge_sha : String)
  | MergeConflict (head_sha : String)
  | PushToAutoBranchFailed (merge_sha : String) (branch : String)
      (error : BranchUpdateError)
deriving DecidableEq, Repr

/-- One attempted forge or store effect, in the order the engine issues
them. SetBranchToSha and MergeBranches carry the outcome reported by the
forge (ok flag, resp. the created merge SHA) because branch heads depend
on it; the other constructors record the attempt (a failed attempt is
handled by the control flow of the engine, reflected in the step outcome). -/
inductive Action
  | PostComment (pr : Nat) (c : Comment)
  | SetBranchToSha (branch : String) (sha : String) (force : ForcePush) (ok : Bool)
  | MergeBranches (branch : String) (head_sha : String) (message : String)
      (result : Option String)
  | UpdateCheckRun (id : Int) (status : CheckRunStatus)
      (conclusion : Option CheckRunConclusion)
  | SetPrStatus (pr : Nat) (status : PullRequestStatus)
  | UpdateBuildStatus (status : BuildStatus)
  | AttachAutoBuild (pr : Nat) (branch : String) (merge_sha : String) (base_sha : String)
  | CreateCheckRun (name : String) (head_sha : String) (status : CheckRunStatus)
      (external_id : String)
  | UpdateBuildCheckRunId (build_id : Nat) (check_run_id : Int)
  | UpdatePrMergeableState (pr : Nat) (state : MergeableState)
  | CancelWorkflows (ids : List Nat)
  | SetCooldown (seconds : Nat)
deriving DecidableEq, Repr

/-- Branch used for performing merge operations; should not run CI checks. -/
def AUTO_MERGE_BRANCH_NAME : String := "automation/bors/auto-merge"

/-- Branch where CI checks run for auto builds. -/
def AUTO_BRANCH_NAME : String := "automation/bors/auto"

/-- The name of the check run seen in the GitHub UI. -/
def AUTO_BUILD_CHECK_RUN_NAME : String := "Bors auto build"

/-- Modelled from the spec: the Sort Policy (sort_queue_prs of
src/utils/sort_queue.rs, whose source is not among the provided files).
Rank 1 of the lexicographic key: PRs with a non-null pending or
successful build come before those without such a build. -/
def buildPhase (p : PullRequestModel) : Nat :=
  match p.auto_build with
  | some b => if b.status = BuildStatus.Pending ∨ b.status = BuildStatus.Success then 0 else 1
  | none => 1

/-- Modelled from the spec: rank 2 of the sort key — among PRs with a
build, success before pending. -/
def buildRank (p : PullRequestModel) : Nat :=
  match p.auto_build with
  | some b => if b.status = BuildStatus.Success then 0 else 1
  | none => 1

/-- Modelled from the spec: rollup order never < iffy < maybe < always. -/
def rollupRank : RollupMode → Nat
  | RollupMode.Never => 0
  | RollupMode.Iffy => 1
  | RollupMode.Maybe => 2
  | RollupMode.Always => 3

/-- Modelled from the spec: priority with absent treated as 0. -/
def priorityD (p : PullRequestModel) : Nat := p.priority.getD 0

/-- Modelled from the spec: the lexicographic queue order — build phase,
then success before pending, then higher priority, then rollup mode,
then lower PR number. -/
def queueLe (a b : PullRequestModel) : Bool :=
  if buildPhase a ≠ buildPhase b then buildPhase a < buildPhase b
  else if buildRank a ≠ buildRank b then buildRank a < buildRank b
  else if priorityD a ≠ priorityD b then priorityD b < priorityD a
  else if rollupRank a.rollup ≠ rollupRank b.rollup then rollupRank a.rollup < rollupRank b.rollup
  else a.number ≤ b.number

/-- Insertion into a queue-ordered list (stable). -/
def insertPr (x : PullRequestModel) : List PullRequestModel → List PullRequestModel
  | [] => [x]
  | y :: ys => if queueLe x y then x :: y :: ys else y :: insertPr x ys

/-- Modelled from the spec: sort_queue_prs — sorts the eligible PRs of one
repository into execution order (src/utils/sort_queue.rs is not among the
provided source files; the ordering follows spec section 4.1). -/
def sort_queue_prs : List PullRequestModel → List PullRequestModel
  | [] => []
  | x :: xs => insertPr x (sort_queue_prs xs)

theorem mem_insertPr {a x : PullRequestModel} {l : List PullRequestModel}
    (h : a ∈ insertPr x l) : a = x ∨ a ∈ l := by
  induction l with
  | nil => simpa [insertPr] using h
  | cons y ys ih =>
    by_cases hle : queueLe x y = true
    · rw [insertPr, if_pos hle] at h
      simpa [List.mem_cons] using h
    · rw [insertPr, if_neg hle] at h
      rcases List.mem_cons.mp h with h | h
      · exact Or.inr (List.mem_cons.mpr (Or.inl h))
      · rcases ih h with h | h
        · exact Or.inl h
        · exact Or.inr (List.mem_cons.mpr (Or.inr h))

theorem insertPr_mem {x : PullRequestModel} {l : List PullRequestModel}
    {a : PullRequestModel} (h : a ∈ l) : a ∈ insertPr x l := by
  induction l with
  | nil => cases h
  | cons y ys ih =>
    by_cases hle : queueLe x y = true
    · rw [insertPr, if_pos hle]
      exact List.mem_cons.mpr (Or.inr h)
    · rw [insertPr, if_neg hle]
      rcases List.mem_cons.mp h with h | h
      · exact List.mem_cons.mpr (Or.inl h)
      · exact List.mem_cons.mpr (Or.inr (ih h))

theorem self_mem_insertPr (x : PullRequestModel) (l : List PullRequestModel) :
    x ∈ insertPr x l := by
  induction l with
  | nil => simp [insertPr]
  | cons y ys ih =>
    by_cases hle : queueLe x y = true
    · rw [insertPr, if_pos hle]; exact List.mem_cons.mpr (Or.inl rfl)
    · rw [insertPr, if_neg hle]; exact List.mem_cons.mpr (Or.inr ih)

theorem mem_sort_queue_prs {a : PullRequestModel} {l : List PullRequestModel} :
    a ∈ sort_queue_prs l ↔ a ∈ l := by
  induction l with
  | nil => simp [sort_queue_prs]
  | cons x xs ih =>
    constructor
    · intro h
      rcases mem_insertPr (l := sort_queue_prs xs) (by simpa [sort_queue_prs] using h) with h | h
      · simp [h]
      · simp [List.mem_cons, ih.mp h]
    · intro h
      rcases List.mem_cons.mp h with h | h
      · subst h
        simpa [sort_queue_prs] using self_mem_insertPr a (sort_queue_prs xs)
      · simpa [sort_queue_prs] using insertPr_mem (x := x) (ih.mpr h)

/-- If queueLe a b fails then the build phase of b is at most that of a. -/
theorem buildPhase_le_of_not_queueLe {a b : PullRequestModel}
    (h : queueLe a b = false) : buildPhase b ≤ buildPhase a := by
  unfold queueLe at h
  by_cases hne : buildPhase a = buildPhase b
  · omega
  · rw [if_pos hne] at h
    have := of_decide_eq_false h
    omega

/-- If queueLe a b holds then the build phase of a is at most that of b. -/
theorem buildPhase_le_of_queueLe {a b : PullRequestModel}
    (h : queueLe a b = true) : buildPhase a ≤ buildPhase b := by
  unfold queueLe at h
  by_cases hne : buildPhase a = buildPhase b
  · omega
  · rw [if_pos hne] at h
    have := of_decide_eq_true h
    omega

/-- If some PR in the list has a pending-or-success build (build phase 0),
then the head of the sorted list has build phase 0 as well. -/
theorem head_buildPhase_zero {l : List PullRequestModel}
    (hex : ∃ p ∈ l, buildPhase p = 0) {q : PullRequestModel}
    (hq : (sort_queue_prs l).head? = some q) : buildPhase q = 0 := by
  induction l generalizing q with
  | nil => rcases hex with ⟨p, hp, _⟩; cases hp
  | cons x xs ih =>
    rcases hex with ⟨p, hp, hp0⟩
    rw [sort_queue_prs] at hq
    rcases List.mem_cons.mp hp with rfl | hpxs
    · cases hs : sort_queue_prs xs with
      | nil =>
        rw [hs] at hq
        simp [insertPr] at hq
        subst hq
        exact hp0
      | cons y ys =>
        rw [hs] at hq
        by_cases hle : queueLe p y = true
        · rw [insertPr, if_pos hle] at hq
          simp at hq
          subst hq
          exact hp0
        · rw [insertPr, if_neg hle] at hq
          simp at hq
          subst hq
          have := buildPhase_le_of_not_queueLe (Bool.eq_false_iff.mpr hle)
          omega
    · have hys : p ∈ sort_queue_prs xs := mem_sort_queue_prs.mpr hpxs
      cases hs : sort_queue_prs xs with
      | nil => rw [hs] at hys; cases hys
      | cons y ys =>
        have hy0 : buildPhase y = 0 := ih ⟨p, hpxs, hp0⟩ (by rw [hs]; rfl)
        rw [hs] at hq
        by_cases hle : queueLe x y = true
        · rw [insertPr, if_pos hle] at hq
          simp at hq
          subst hq
          have := buildPhase_le_of_queueLe hle
          omega
        · rw [insertPr, if_neg hle] at hq
          simp at hq
          subst hq
          exact hy0

/-- Outcomes of the environment calls made by start_auto_build and
attempt_merge, one field per call site. Store errors are Strings
(anyhow messages). -/
structure StartBuildEnv where
  set_auto_merge_branch : Except BranchUpdateError Unit
  merge_branches : Except MergeError String
  set_auto_branch : Except BranchUpdateError Unit
  attach_auto_build : Except String Nat
  create_check_run : Except String Int
  update_build_check_run_id : Except String Unit
  update_pr_mergeable_state : Except String Unit
deriving DecidableEq, Repr

/-- Outcomes of the environment calls made by the success-build
resolution path of merge_queue_tick, one field per call site. -/
structure SuccessEnv where
  get_workflows : Except String (List Workflow)
  post_success_comment : Except String Unit
  set_base_branch : Except BranchUpdateError Unit
  set_pr_merged : Except String Unit
  update_check_run : Except String Unit
  update_build_status : Except String Unit
  post_push_failed_comment : Except String Unit
deriving DecidableEq, Repr

/-- Outcomes of the environment calls made by the start-a-new-build
path of merge_queue_tick, one field per call site. -/
structure NoBuildEnv where
  get_pull_request : Except String GhPullRequest
  get_branch_sha : Except String String
  start : StartBuildEnv
  post_started_comment : Except String Unit
  post_conflict_comment : Except String Unit
  post_push_to_auto_failed_comment : Except String Unit
  get_workflow_runs : Except String (List WorkflowRun)
  cancel_workflows : Except String Unit
  reset_auto_branch : Except BranchUpdateError Unit
deriving DecidableEq, Repr

/-- The fields of the repository database row read by the tick engine
(only the tree-state priority threshold feeding the store query). -/
structure RepoModel where
  tree_priority : Nat
deriving DecidableEq, Repr

/-- Per-repository input of one tick iteration: the repository state
flags, the outcomes of the store queries, and the call-site
environments for both resolution paths. -/
structure RepoInput where
  in_cooldown : Bool
  repo_db : Except String (Option RepoModel)
  merge_queue_enabled : Bool
  prs : Except String (List PullRequestModel)
  success_env : SuccessEnv
  no_build_env : NoBuildEnv
deriving DecidableEq, Repr

/-- How one repository iteration ends: go on to the next repository,
return Ok from the whole tick, propagate an error out of the whole
tick, or hit the unreachable!() branch. -/
inductive StepOutcome
  | next
  | stop
  | fail (e : String)
  | panicked
deriving DecidableEq, Repr

/-- Result of one repository iteration: its outcome plus the ordered
trace of attempted forge/store effects. -/
structure StepResult where
  outcome : StepOutcome
  actions : List Action
deriving DecidableEq, Repr

/-- Embedding of attempt_merge: force-push base onto the staging branch
AUTO_MERGE_BRANCH_NAME, then merge the head into it with the given
message. Returns the result together with the trace of forge effects. -/
def attempt_merge (env : StartBuildEnv) (head_sha base_sha merge_message : String) :
    Except AttemptMergeErr MergeResult × List Action :=
  match env.set_auto_merge_branch with
  | Except.error e =>
      (Except.error (AttemptMergeErr.CannotSetAutoMergeBranch base_sha e),
       [Action.SetBranchToSha AUTO_MERGE_BRANCH_NAME base_sha ForcePush.Yes false])
  | Except.ok _ =>
      let a1 := Action.SetBranchToSha AUTO_MERGE_BRANCH_NAME base_sha ForcePush.Yes true
      match env.merge_branches with
      | Except.ok merge_sha =>
          (Except.ok (MergeResult.Success merge_sha),
           [a1, Action.MergeBranches AUTO_MERGE_BRANCH_NAME head_sha merge_message (some merge_sha)])
      | Except.error MergeError.Conflict =>
          (Except.ok MergeResult.Conflict,
           [a1, Action.MergeBranches AUTO_MERGE_BRANCH_NAME head_sha merge_message none])
      | Except.error (MergeError.Other m) =>
          (Except.error (AttemptMergeErr.MergeFailed m),
           [a1, Action.MergeBranches AUTO_MERGE_BRANCH_NAME head_sha merge_message none])

/-- The commit message of the auto merge commit built by start_auto_build. -/
def autoMergeCommitMessage (pr : PullRequestModel) (gh : GhPullRequest) : String :=
  "Auto merge of #" ++ toString pr.number ++ " - " ++ gh.head_label ++ ", r=" ++
    pr.approver.getD "<unknown>" ++ "\n\n" ++ pr.title ++ "\n\n" ++ gh.message

/-- Embedding of start_auto_build: trial merge on the staging branch,
force-push the merge commit to the CI branch, record the build, create
the check run (failures of the check-run steps are only logged). -/
def start_auto_build (env : StartBuildEnv) (pr : PullRequestModel)
    (gh : GhPullRequest) (base_sha : String) :
    Except AutoBuildStartError String × List Action :=
  match attempt_merge env gh.head_sha base_sha (autoMergeCommitMessage pr gh) with
  | (Except.ok (MergeResult.Success merge_sha), acts) =>
      match env.set_auto_branch with
      | Except.error e =>
          (Except.error (AutoBuildStartError.FailedToPush merge_sha e),
           acts ++ [Action.SetBranchToSha AUTO_BRANCH_NAME merge_sha ForcePush.Yes false])
      | Except.ok _ =>
          let acts := acts ++ [Action.SetBranchToSha AUTO_BRANCH_NAME merge_sha ForcePush.Yes true]
          match env.attach_auto_build with
          | Except.error e =>
              (Except.error (AutoBuildStartError.FailedToRecordBuild merge_sha e),
               acts ++ [Action.AttachAutoBuild pr.number AUTO_BRANCH_NAME merge_sha base_sha])
          | Except.ok build_id =>
              let acts := acts ++
                [Action.AttachAutoBuild pr.number AUTO_BRANCH_NAME merge_sha base_sha]
              match env.create_check_run with
              | Except.error _ =>
                  (Except.ok merge_sha,
                   acts ++ [Action.CreateCheckRun AUTO_BUILD_CHECK_RUN_NAME gh.head_sha
                     CheckRunStatus.InProgress (toString build_id)])
              | Except.ok check_id =>
                  (Except.ok merge_sha,
                   acts ++ [Action.CreateCheckRun AUTO_BUILD_CHECK_RUN_NAME gh.head_sha
                       CheckRunStatus.InProgress (toString build_id),
                     Action.UpdateBuildCheckRunId build_id check_id])
  | (Except.ok MergeResult.Conflict, acts) =>
      let acts := acts ++ [Action.UpdatePrMergeableState pr.number MergeableState.HasConflicts]
      match env.update_pr_mergeable_state with
      | Except.error e => (Except.error (AutoBuildStartError.FailedToMarkAsConflicted e), acts)
      | Except.ok _ =>
          (Except.error (AutoBuildStartError.MergeConflicts
            "Merge conflict detected between PR head and base branch"), acts)
  | (Except.error e, acts) => (Except.error (AutoBuildStartError.FailedToMerge e), acts)

/-- Embedding of the BuildStatus::Success arm of merge_queue_tick:
post the success comment, fast-forward the base branch (non-force) and
handle each error class of the push. -/
def resolveSuccessBuild (env : SuccessEnv) (pr : PullRequestModel) (b : Build) : StepResult :=
  match env.get_workflows with
  | Except.error e => ⟨StepOutcome.fail e, []⟩
  | Except.ok ws =>
    let c1 := Action.PostComment pr.number
      (Comment.AutoBuildSucceeded ws (pr.approver.getD "<unknown>") b.commit_sha pr.base_branch)
    match env.post_success_comment with
    | Except.error e => ⟨StepOutcome.fail e, [c1]⟩
    | Except.ok _ =>
      match env.set_base_branch with
      | Except.ok _ =>
        let push := Action.SetBranchToSha pr.base_branch b.commit_sha ForcePush.No true
        match env.set_pr_merged with
        | Except.ok _ =>
            ⟨StepOutcome.next, [c1, push, Action.SetPrStatus pr.number PullRequestStatus.Merged]⟩
        | Except.error _ =>
            ⟨StepOutcome.next, [c1, push, Action.SetPrStatus pr.number PullRequestStatus.Merged,
              Action.SetCooldown 60]⟩
      | Except.error err =>
        let push := Action.SetBranchToSha pr.base_branch b.commit_sha ForcePush.No false
        match err with
        | BranchUpdateError.FastForwardConflict _ =>
            ⟨StepOutcome.next, [c1, push, Action.SetCooldown 5]⟩
        | BranchUpdateError.ValidationFailed _ _ =>
            ⟨StepOutcome.next, [c1, push, Action.SetCooldown 10]⟩
        | BranchUpdateError.Custom _ =>
          let checkActs : List Action :=
            match b.check_run_id with
            | some id => [Action.UpdateCheckRun id CheckRunStatus.Completed
                (some CheckRunConclusion.Failure)]
            | none => []
          match env.update_build_status with
          | Except.error _ =>
              ⟨StepOutcome.next, [c1, push] ++ checkActs ++
                [Action.UpdateBuildStatus BuildStatus.Failure, Action.SetCooldown 60]⟩
          | Except.ok _ =>
            let c2 := Action.PostComment pr.number (Comment.AutoBuildPushFailed err)
            match env.post_push_failed_comment with
            | Except.error e =>
                ⟨StepOutcome.fail e, [c1, push] ++ checkActs ++
                  [Action.UpdateBuildStatus BuildStatus.Failure, c2]⟩
            | Except.ok _ =>
                ⟨StepOutcome.next, [c1, push] ++ checkActs ++
                  [Action.UpdateBuildStatus BuildStatus.Failure, c2]⟩

/-- Embedding of the no-build arm of merge_queue_tick: read the PR and
the base head from the forge, run start_auto_build, and handle each
constructor of AutoBuildStartError as the source does. -/
def noBuildStep (env : NoBuildEnv) (pr : PullRequestModel) : StepResult :=
  match env.get_pull_request with
  | Except.error e => ⟨StepOutcome.fail e, []⟩
  | Except.ok gh =>
    match env.get_branch_sha with
    | Except.error e => ⟨StepOutcome.fail e, []⟩
    | Except.ok base_sha =>
      match start_auto_build env.start pr gh base_sha with
      | (Except.ok merge_sha, acts) =>
        let c := Action.PostComment pr.number (Comment.AutoBuildStarted gh.head_sha merge_sha)
        match env.post_started_comment with
        | Except.error e => ⟨StepOutcome.fail e, acts ++ [c]⟩
        | Except.ok _ => ⟨StepOutcome.next, acts ++ [c]⟩
      | (Except.error (AutoBuildStartError.FailedToMerge _), acts) =>
          ⟨StepOutcome.next, acts⟩
      | (Except.error (AutoBuildStartError.MergeConflicts _), acts)
      | (Except.error (AutoBuildStartError.FailedToMarkAsConflicted _), acts) =>
        let c := Action.PostComment pr.number (Comment.MergeConflict gh.head_sha)
        match env.post_conflict_comment with
        | Except.error e => ⟨StepOutcome.fail e, acts ++ [c]⟩
        | Except.ok _ => ⟨StepOutcome.next, acts ++ [c]⟩
      | (Except.error (AutoBuildStartError.FailedToPush merge_sha err), acts) =>
        let c := Action.PostComment pr.number
          (Comment.PushToAutoBranchFailed merge_sha AUTO_BRANCH_NAME err)
        match env.post_push_to_auto_failed_comment with
        | Except.error e => ⟨StepOutcome.fail e, acts ++ [c]⟩
        | Except.ok _ => ⟨StepOutcome.next, acts ++ [c]⟩
      | (Except.error (AutoBuildStartError.FailedToRecordBuild _ _), acts) =>
        let cancelActs : List Action :=
          match env.get_workflow_runs with
          | Except.error _ => []
          | Except.ok runs =>
            let ids := (runs.filter
              (fun w => w.status == "in_progress" || w.status == "queued")).map (fun w => w.id)
            if ids.isEmpty then [] else [Action.CancelWorkflows ids]
        let resetOk := match env.reset_auto_branch with
          | Except.ok _ => true
          | Except.error _ => false
        ⟨StepOutcome.next, acts ++ cancelActs ++
          [Action.SetBranchToSha AUTO_BRANCH_NAME base_sha ForcePush.Yes resetOk]⟩

/-- Embedding of the loop body of merge_queue_tick for one repository:
the gate checks, candidate selection via the sort policy, and dispatch
on the build status of the selected PR. -/
def mergeQueueStep (r : RepoInput) : StepResult :=
  if r.in_cooldown then ⟨StepOutcome.next, []⟩
  else match r.repo_db with
  | Except.error e => ⟨StepOutcome.fail e, []⟩
  | Except.ok none => ⟨StepOutcome.next, []⟩
  | Except.ok (some _) =>
    if !r.merge_queue_enabled then ⟨StepOutcome.next, []⟩
    else match r.prs with
    | Except.error e => ⟨StepOutcome.fail e, []⟩
    | Except.ok l =>
      match (sort_queue_prs l).head? with
      | none => ⟨StepOutcome.stop, []⟩
      | some pr =>
        match pr.auto_build with
        | some b =>
          match b.status with
          | BuildStatus.Success => resolveSuccessBuild r.success_env pr b
          | BuildStatus.Pending => ⟨StepOutcome.next, []⟩
          | BuildStatus.Failure => ⟨StepOutcome.panicked, []⟩
          | BuildStatus.Cancelled => ⟨StepOutcome.panicked, []⟩
          | BuildStatus.Timeouted => ⟨StepOutcome.panicked, []⟩
        | none => noBuildStep r.no_build_env pr

/-- How the whole tick ends. -/
inductive TickOutcome
  | ok
  | err (e : String)
  | panicked
deriving DecidableEq, Repr

/-- Result of a whole tick: its outcome and, per repository actually
entered, the trace of attempted effects (in iteration order). -/
structure TickResult where
  outcome : TickOutcome
  trace : List (List Action)
deriving DecidableEq, Repr

/-- Embedding of merge_queue_tick: fold the per-repository step over the
repositories in iteration order; StepOutcome.stop models the
return Ok(()) of the source and ends the tick, StepOutcome.fail models error
propagation through the question-mark operator. -/
def merge_queue_tick : List RepoInput → TickResult
  | [] => ⟨TickOutcome.ok, []⟩
  | r :: rs =>
    let s := mergeQueueStep r
    match s.outcome with
    | StepOutcome.next =>
        let t := merge_queue_tick rs
        ⟨t.outcome, s.actions :: t.trace⟩
    | StepOutcome.stop => ⟨TickOutcome.ok, [s.actions]⟩
    | StepOutcome.fail e => ⟨TickOutcome.err e, [s.actions]⟩
    | StepOutcome.panicked => ⟨TickOutcome.panicked, [s.actions]⟩

/-- Interpretation of the action trace on branch heads: a successful
set-branch or merge moves the branch; everything else leaves heads
unchanged. -/
def applyAction (m : String → String) : Action → (String → String)
  | Action.SetBranchToSha br sha _ true => fun x => if x = br then sha else m x
  | Action.MergeBranches br _ _ (some sha) => fun x => if x = br then sha else m x
  | _ => m

/-- Fold applyAction over a trace. -/
def applyActions (m : String → String) (acts : List Action) : String → String :=
  acts.foldl applyAction m

/-- True exactly on AttachAutoBuild actions (build-row creation). -/
def isAttachAction : Action → Bool
  | Action.AttachAutoBuild _ _ _ _ => true
  | _ => false

/-- True exactly on SetCooldown actions. -/
def isCooldownAction : Action → Bool
  | Action.SetCooldown _ => true
  | _ => false

/-- True exactly on PostComment actions. -/
def isCommentAction : Action → Bool
  | Action.PostComment _ _ => true
  | _ => false

/-- True exactly on UpdateCheckRun actions. -/
def isUpdateCheckRunAction : Action → Bool
  | Action.UpdateCheckRun _ _ _ => true
  | _ => false

/-- True exactly on push-failed comments. -/
def isPushFailedCommentAction : Action → Bool
  | Action.PostComment _ (Comment.AutoBuildPushFailed _) => true
  | _ => false

theorem attempt_merge_actions (env : StartBuildEnv) (hd bs mm : String) (a : Action)
    (h : a ∈ (attempt_merge env hd bs mm).2) :
    isCooldownAction a = false ∧ isCommentAction a = false ∧ isAttachAction a = false := by
  unfold attempt_merge at h
  rcases env with ⟨sab, mb, _, _, _, _, _⟩
  dsimp only at h
  cases sab with
  | error e =>
      simp at h
      subst h
      simp [isCooldownAction, isCommentAction, isAttachAction]
  | ok u =>
      cases mb with
      | ok sha =>
          simp at h
          rcases h with h | h <;> subst h <;>
            simp [isCooldownAction, isCommentAction, isAttachAction]
      | error me =>
          cases me with
          | Conflict =>
              simp at h
              rcases h with h | h <;> subst h <;>
                simp [isCooldownAction, isCommentAction, isAttachAction]
          | Other m =>
              simp at h
              rcases h with h | h <;> subst h <;>
                simp [isCooldownAction, isCommentAction, isAttachAction]

theorem start_auto_build_actions (env : StartBuildEnv) (pr : PullRequestModel)
    (gh : GhPullRequest) (bs : String) (a : Action)
    (h : a ∈ (start_auto_build env pr gh bs).2) :
    isCooldownAction a = false ∧ isCommentAction a = false := by
  rcases env with ⟨sab, mb, sbr, aab, ccr, ubc, upm⟩
  unfold start_auto_build at h
  rcases hat : attempt_merge ⟨sab, mb, sbr, aab, ccr, ubc, upm⟩ gh.head_sha bs
    (autoMergeCommitMessage pr gh) with ⟨res, acts⟩
  rw [hat] at h
  dsimp only at h
  have hmem : ∀ x ∈ acts, isCooldownAction x = false ∧ isCommentAction x = false := by
    intro x hx
    have := attempt_merge_actions ⟨sab, mb, sbr, aab, ccr, ubc, upm⟩ gh.head_sha bs
      (autoMergeCommitMessage pr gh) x (by rw [hat]; exact hx)
    exact ⟨this.1, this.2.1⟩
  cases res with
  | error e =>
      dsimp only at h
      exact hmem a h
  | ok mr =>
      cases mr with
      | Success merge_sha =>
          cases sbr with
          | error e =>
              simp at h
              rcases h with h | h
              · exact hmem a h
              · subst h; simp [isCooldownAction, isCommentAction]
          | ok u =>
              cases aab with
              | error e =>
                  simp at h
                  rcases h with h | h | h
                  · exact hmem a h
                  · subst h; simp [isCooldownAction, isCommentAction]
                  · subst h; simp [isCooldownAction, isCommentAction]
              | ok build_id =>
                  cases ccr with
                  | error e =>
                      simp at h
                      rcases h with h | h | h | h
                      · exact hmem a h
                      · subst h; simp [isCooldownAction, isCommentAction]
                      · subst h; simp [isCooldownAction, isCommentAction]
                      · subst h; simp [isCooldownAction, isCommentAction]
                  | ok check_id =>
                      simp at h
                      rcases h with h | h | h | h | h
                      · exact hmem a h
                      · subst h; simp [isCooldownAction, isCommentAction]
                      · subst h; simp [isCooldownAction, isCommentAction]
                      · subst h; simp [isCooldownAction, isCommentAction]
                      · subst h; simp [isCooldownAction, isCommentAction]
      | Conflict =>
          cases upm with
          | error e =>
              simp at h
              rcases h with h | h
              · exact hmem a h
              · subst h; simp [isCooldownAction, isCommentAction]
          | ok u =>
              simp at h
              rcases h with h | h
              · exact hmem a h
              · subst h; simp [isCooldownAction, isCommentAction]

theorem resolveSuccessBuild_no_attach_no_panic (env : SuccessEnv)
    (pr : PullRequestModel) (b : Build) :
    (∀ a ∈ (resolveSuccessBuild env pr b).actions, isAttachAction a = false) ∧
    (resolveSuccessBuild env pr b).outcome ≠ StepOutcome.panicked := by
  unfold resolveSuccessBuild
  rcases env with ⟨wf, pc, sb, spm, ucr, ubs, ppf⟩
  dsimp only
  cases wf with
  | error e => simp
  | ok ws =>
    cases pc with
    | error e => simp [isAttachAction]
    | ok u =>
      cases sb with
      | ok v => cases spm <;> simp [isAttachAction]
      | error err =>
        cases err with
        | FastForwardConflict br => simp [isAttachAction]
        | ValidationFailed br m => simp [isAttachAction]
        | Custom m =>
          cases hcid : b.check_run_id <;> cases ubs <;> cases ppf <;>
            simp [isAttachAction, hcid]

theorem resolveSuccessBuild_cooldown (env : SuccessEnv)
    (pr : PullRequestModel) (b : Build) (s : Nat)
    (h : Action.SetCooldown s ∈ (resolveSuccessBuild env pr b).actions) :
    (s = 5 ∧ ∃ br, env.set_base_branch =
        Except.error (BranchUpdateError.FastForwardConflict br)) ∨
    (s = 10 ∧ ∃ br m, env.set_base_branch =
        Except.error (BranchUpdateError.ValidationFailed br m)) ∨
    (s = 60 ∧ ((env.set_base_branch = Except.ok () ∧
          ∃ e, env.set_pr_merged = Except.error e) ∨
        (∃ m, env.set_base_branch = Except.error (BranchUpdateError.Custom m) ∧
          ∃ e, env.update_build_status = Except.error e))) := by
  unfold resolveSuccessBuild at h
  rcases env with ⟨wf, pc, sb, spm, ucr, ubs, ppf⟩
  dsimp only at h ⊢
  cases wf with
  | error e => simp at h
  | ok ws =>
    cases pc with
    | error e => simp at h
    | ok u =>
      cases sb with
      | ok v =>
        cases v
        cases spm with
        | ok w => simp at h
        | error e =>
          simp at h
          exact Or.inr (Or.inr ⟨h, Or.inl ⟨rfl, e, rfl⟩⟩)
      | error err =>
        cases err with
        | FastForwardConflict br =>
          simp at h
          exact Or.inl ⟨h, br, rfl⟩
        | ValidationFailed br m =>
          simp at h
          exact Or.inr (Or.inl ⟨h, br, m, rfl⟩)
        | Custom m =>
          cases hcid : b.check_run_id with
          | none =>
            cases ubs with
            | error e =>
              simp [hcid] at h
              exact Or.inr (Or.inr ⟨h, Or.inr ⟨m, rfl, e, rfl⟩⟩)
            | ok w => cases ppf <;> simp [hcid] at h
          | some cid =>
            cases ubs with
            | error e =>
              simp [hcid] at h
              exact Or.inr (Or.inr ⟨h, Or.inr ⟨m, rfl, e, rfl⟩⟩)
            | ok w => cases ppf <;> simp [hcid] at h

theorem noBuildStep_no_cooldown_no_panic (env : NoBuildEnv) (pr : PullRequestModel) :
    (∀ a ∈ (noBuildStep env pr).actions, isCooldownAction a = false) ∧
    (noBuildStep env pr).outcome ≠ StepOutcome.panicked := by
  unfold noBuildStep
  cases hgp : env.get_pull_request with
  | error e => simp
  | ok gh =>
    cases hgb : env.get_branch_sha with
    | error e => simp
    | ok base =>
      dsimp only
      rcases hsb : start_auto_build env.start pr gh base with ⟨res, acts⟩
      have hmem : ∀ x ∈ acts, isCooldownAction x = false := by
        intro x hx
        exact (start_auto_build_actions env.start pr gh base x (by rw [hsb]; exact hx)).1
      cases res with
      | ok merge_sha =>
        cases env.post_started_comment <;>
          · constructor
            · intro a ha
              simp at ha
              rcases ha with ha | ha
              · exact hmem a ha
              · subst ha; simp [isCooldownAction]
            · simp
      | error err =>
        cases err with
        | FailedToMerge e =>
          constructor
          · intro a ha
            exact hmem a ha
          · simp
        | MergeConflicts e =>
          cases env.post_conflict_comment <;>
            · constructor
              · intro a ha
                simp at ha
                rcases ha with ha | ha
                · exact hmem a ha
                · subst ha; simp [isCooldownAction]
              · simp
        | FailedToMarkAsConflicted e =>
          cases env.post_conflict_comment <;>
            · constructor
              · intro a ha
                simp at ha
                rcases ha with ha | ha
                · exact hmem a ha
                · subst ha; simp [isCooldownAction]
              · simp
        | FailedToPush merge_sha e =>
          cases env.post_push_to_auto_failed_comment <;>
            · constructor
              · intro a ha
                simp at ha
                rcases ha with ha | ha
                · exact hmem a ha
                · subst ha; simp [isCooldownAction]
              · simp
        | FailedToRecordBuild merge_sha e =>
          refine ⟨?_, by simp⟩
          intro a ha
          rcases List.mem_append.mp ha with ha | ha
          · rcases List.mem_append.mp ha with ha | ha
            · exact hmem a ha
            · rcases hwr : env.get_workflow_runs with we | runs <;> rw [hwr] at ha
              · simp at ha
              · dsimp only at ha
                by_cases hids : ((runs.filter
                    (fun w => w.status == "in_progress" || w.status == "queued")).map
                      (fun w => w.id)).isEmpty = true
                · rw [if_pos hids] at ha
                  simp at ha
                · rw [if_neg hids] at ha
                  rw [List.mem_singleton] at ha
                  subst ha; simp [isCooldownAction]
          · rw [List.mem_singleton] at ha
            subst ha; simp [isCooldownAction]

theorem mergeQueueStep_success_build (r : RepoInput) (rm : RepoModel)
    (l : List PullRequestModel) (pr : PullRequestModel) (b : Build)
    (hcool : r.in_cooldown = false) (hdb : r.repo_db = Except.ok (some rm))
    (hen : r.merge_queue_enabled = true) (hprs : r.prs = Except.ok l)
    (hsel : (sort_queue_prs l).head? = some pr)
    (hb : pr.auto_build = some b) (hst : b.status = BuildStatus.Success) :
    mergeQueueStep r = resolveSuccessBuild r.success_env pr b := by
  unfold mergeQueueStep
  rw [hcool, hdb, hprs]
  simp [hen, hsel, hb, hst]

theorem mergeQueueStep_pending_build (r : RepoInput) (rm : RepoModel)
    (l : List PullRequestModel) (pr : PullRequestModel) (b : Build)
    (hcool : r.in_cooldown = false) (hdb : r.repo_db = Except.ok (some rm))
    (hen : r.merge_queue_enabled = true) (hprs : r.prs = Except.ok l)
    (hsel : (sort_queue_prs l).head? = some pr)
    (hb : pr.auto_build = some b) (hst : b.status = BuildStatus.Pending) :
    mergeQueueStep r = ⟨StepOutcome.next, []⟩ := by
  unfold mergeQueueStep
  rw [hcool, hdb, hprs]
  simp [hen, hsel, hb, hst]

theorem mergeQueueStep_no_build (r : RepoInput) (rm : RepoModel)
    (l : List PullRequestModel) (pr : PullRequestModel)
    (hcool : r.in_cooldown = false) (hdb : r.repo_db = Except.ok (some rm))
    (hen : r.merge_queue_enabled = true) (hprs : r.prs = Except.ok l)
    (hsel : (sort_queue_prs l).head? = some pr)
    (hb : pr.auto_build = none) :
    mergeQueueStep r = noBuildStep r.no_build_env pr := by
  unfold mergeQueueStep
  rw [hcool, hdb, hprs]
  simp [hen, hsel, hb]

/-- The success comment posted first in the success-build path. -/
def successComment (pr : PullRequestModel) (b : Build) (ws : List Workflow) : Action :=
  Action.PostComment pr.number
    (Comment.AutoBuildSucceeded ws (pr.approver.getD "<unknown>") b.commit_sha pr.base_branch)

theorem resolveSuccessBuild_validation (env : SuccessEnv) (pr : PullRequestModel)
    (b : Build) (ws : List Workflow) (br msg : String)
    (hwf : env.get_workflows = Except.ok ws)
    (hpc : env.post_success_comment = Except.ok ())
    (hpush : env.set_base_branch =
      Except.error (BranchUpdateError.ValidationFailed br msg)) :
    resolveSuccessBuild env pr b = ⟨StepOutcome.next,
      [successComment pr b ws,
       Action.SetBranchToSha pr.base_branch b.commit_sha ForcePush.No false,
       Action.SetCooldown 10]⟩ := by
  simp [resolveSuccessBuild, successComment, hwf, hpc, hpush]

theorem resolveSuccessBuild_ffconflict (env : SuccessEnv) (pr : PullRequestModel)
    (b : Build) (ws : List Workflow) (br : String)
    (hwf : env.get_workflows = Except.ok ws)
    (hpc : env.post_success_comment = Except.ok ())
    (hpush : env.set_base_branch =
      Except.error (BranchUpdateError.FastForwardConflict br)) :
    resolveSuccessBuild env pr b = ⟨StepOutcome.next,
      [successComment pr b ws,
       Action.SetBranchToSha pr.base_branch b.commit_sha ForcePush.No false,
       Action.SetCooldown 5]⟩ := by
  simp [resolveSuccessBuild, successComment, hwf, hpc, hpush]

theorem resolveSuccessBuild_merged_store_fail (env : SuccessEnv) (pr : PullRequestModel)
    (b : Build) (ws : List Workflow) (e : String)
    (hwf : env.get_workflows = Except.ok ws)
    (hpc : env.post_success_comment = Except.ok ())
    (hpush : env.set_base_branch = Except.ok ())
    (hm : env.set_pr_merged = Except.error e) :
    resolveSuccessBuild env pr b = ⟨StepOutcome.next,
      [successComment pr b ws,
       Action.SetBranchToSha pr.base_branch b.commit_sha ForcePush.No true,
       Action.SetPrStatus pr.number PullRequestStatus.Merged,
       Action.SetCooldown 60]⟩ := by
  simp [resolveSuccessBuild, successComment, hwf, hpc, hpush, hm]

theorem resolveSuccessBuild_custom_store_fail (env : SuccessEnv) (pr : PullRequestModel)
    (b : Build) (ws : List Workflow) (m e : String) (cid : Int)
    (hwf : env.get_workflows = Except.ok ws)
    (hpc : env.post_success_comment = Except.ok ())
    (hpush : env.set_base_branch = Except.error (BranchUpdateError.Custom m))
    (hcid : b.check_run_id = some cid)
    (hu : env.update_build_status = Except.error e) :
    resolveSuccessBuild env pr b = ⟨StepOutcome.next,
      [successComment pr b ws,
       Action.SetBranchToSha pr.base_branch b.commit_sha ForcePush.No false,
       Action.UpdateCheckRun cid CheckRunStatus.Completed (some CheckRunConclusion.Failure),
       Action.UpdateBuildStatus BuildStatus.Failure,
       Action.SetCooldown 60]⟩ := by
  simp [resolveSuccessBuild, successComment, hwf, hpc, hpush, hcid, hu]

theorem resolveSuccessBuild_custom_comment_fail (env : SuccessEnv) (pr : PullRequestModel)
    (b : Build) (ws : List Workflow) (m e : String) (cid : Int)
    (hwf : env.get_workflows = Except.ok ws)
    (hpc : env.post_success_comment = Except.ok ())
    (hpush : env.set_base_branch = Except.error (BranchUpdateError.Custom m))
    (hcid : b.check_run_id = some cid)
    (hu : env.update_build_status = Except.ok ())
    (hcf : env.post_push_failed_comment = Except.error e) :
    resolveSuccessBuild env pr b = ⟨StepOutcome.fail e,
      [successComment pr b ws,
       Action.SetBranchToSha pr.base_branch b.commit_sha ForcePush.No false,
       Action.UpdateCheckRun cid CheckRunStatus.Completed (some CheckRunConclusion.Failure),
       Action.UpdateBuildStatus BuildStatus.Failure,
       Action.PostComment pr.number
         (Comment.AutoBuildPushFailed (BranchUpdateError.Custom m))]⟩ := by
  simp [resolveSuccessBuild, successComment, hwf, hpc, hpush, hcid, hu, hcf]

theorem noBuildStep_conflict (env : NoBuildEnv) (pr : PullRequestModel)
    (gh : GhPullRequest) (bs : String)
    (hgp : env.get_pull_request = Except.ok gh)
    (hgb : env.get_branch_sha = Except.ok bs)
    (hsam : env.start.set_auto_merge_branch = Except.ok ())
    (hmb : env.start.merge_branches = Except.error MergeError.Conflict)
    (hupm : env.start.update_pr_mergeable_state = Except.ok ())
    (hpcc : env.post_conflict_comment = Except.ok ()) :
    noBuildStep env pr = ⟨StepOutcome.next,
      [Action.SetBranchToSha AUTO_MERGE_BRANCH_NAME bs ForcePush.Yes true,
       Action.MergeBranches AUTO_MERGE_BRANCH_NAME gh.head_sha
         (autoMergeCommitMessage pr gh) none,
       Action.UpdatePrMergeableState pr.number MergeableState.HasConflicts,
       Action.PostComment pr.number (Comment.MergeConflict gh.head_sha)]⟩ := by
  simp [noBuildStep, start_auto_build, attempt_merge, hgp, hgb, hsam, hmb, hupm, hpcc]

theorem noBuildStep_conflict_mark_fail (env : NoBuildEnv) (pr : PullRequestModel)
    (gh : GhPullRequest) (bs e : String)
    (hgp : env.get_pull_request = Except.ok gh)
    (hgb : env.get_branch_sha = Except.ok bs)
    (hsam : env.start.set_auto_merge_branch = Except.ok ())
    (hmb : env.start.merge_branches = Except.error MergeError.Conflict)
    (hupm : env.start.update_pr_mergeable_state = Except.error e)
    (hpcc : env.post_conflict_comment = Except.ok ()) :
    noBuildStep env pr = ⟨StepOutcome.next,
      [Action.SetBranchToSha AUTO_MERGE_BRANCH_NAME bs ForcePush.Yes true,
       Action.MergeBranches AUTO_MERGE_BRANCH_NAME gh.head_sha
         (autoMergeCommitMessage pr gh) none,
       Action.UpdatePrMergeableState pr.number MergeableState.HasConflicts,
       Action.PostComment pr.number (Comment.MergeConflict gh.head_sha)]⟩ := by
  simp [noBuildStep, start_auto_build, attempt_merge, hgp, hgb, hsam, hmb, hupm, hpcc]

theorem noBuildStep_record_fail (env : NoBuildEnv) (pr : PullRequestModel)
    (gh : GhPullRequest) (bs sha e : String) (runs : List WorkflowRun)
    (hgp : env.get_pull_request = Except.ok gh)
    (hgb : env.get_branch_sha = Except.ok bs)
    (hsam : env.start.set_auto_merge_branch = Except.ok ())
    (hmb : env.start.merge_branches = Except.ok sha)
    (hsab : env.start.set_auto_branch = Except.ok ())
    (hab : env.start.attach_auto_build = Except.error e)
    (hwr : env.get_workflow_runs = Except.ok runs)
    (hrst : env.reset_auto_branch = Except.ok ()) :
    noBuildStep env pr = ⟨StepOutcome.next,
      [Action.SetBranchToSha AUTO_MERGE_BRANCH_NAME bs ForcePush.Yes true,
       Action.MergeBranches AUTO_MERGE_BRANCH_NAME gh.head_sha
         (autoMergeCommitMessage pr gh) (some sha),
       Action.SetBranchToSha AUTO_BRANCH_NAME sha ForcePush.Yes true,
       Action.AttachAutoBuild pr.number AUTO_BRANCH_NAME sha bs] ++
      (let ids := (runs.filter
          (fun w => w.status == "in_progress" || w.status == "queued")).map (fun w => w.id)
        if ids.isEmpty then [] else [Action.CancelWorkflows ids]) ++
      [Action.SetBranchToSha AUTO_BRANCH_NAME bs ForcePush.Yes true]⟩ := by
  simp [noBuildStep, start_auto_build, attempt_merge, hgp, hgb, hsam, hmb, hsab, hab, hwr, hrst]

theorem head_mem_sort {l : List PullRequestModel} {pr : PullRequestModel}
    (h : (sort_queue_prs l).head? = some pr) : pr ∈ l := by
  have hm : pr ∈ sort_queue_prs l := by
    cases hs : sort_queue_prs l with
    | nil => rw [hs] at h; cases h
    | cons y ys =>
      rw [hs] at h
      simp at h
      subst h
      exact List.mem_cons_self _ _
  exact mem_sort_queue_prs.mp hm

theorem buildPhase_zero_build {p : PullRequestModel} (h : buildPhase p = 0) :
    ∃ b, p.auto_build = some b ∧
      (b.status = BuildStatus.Pending ∨ b.status = BuildStatus.Success) := by
  unfold buildPhase at h
  cases hb : p.auto_build with
  | none => rw [hb] at h; simp at h
  | some b =>
    rw [hb] at h
    dsimp only at h
    by_cases hs : b.status = BuildStatus.Pending ∨ b.status = BuildStatus.Success
    · exact ⟨b, rfl, hs⟩
    · rw [if_neg hs] at h
      simp at h

theorem buildPhase_zero_of_pending {p : PullRequestModel} {b : Build}
    (hb : p.auto_build = some b) (hs : b.status = BuildStatus.Pending) :
    buildPhase p = 0 := by
  unfold buildPhase
  rw [hb]
  simp [hs]

/-- Exhaustive case analysis of one repository iteration: either an
inert gate result, or the success-build path, or the unreachable
branch, or the start-a-new-build path. -/
theorem mergeQueueStep_cases (r : RepoInput) :
    mergeQueueStep r = ⟨StepOutcome.next, []⟩ ∨
    mergeQueueStep r = ⟨StepOutcome.stop, []⟩ ∨
    (∃ e, mergeQueueStep r = ⟨StepOutcome.fail e, []⟩) ∨
    (∃ l pr b, r.prs = Except.ok l ∧ (sort_queue_prs l).head? = some pr ∧
      pr.auto_build = some b ∧ b.status = BuildStatus.Success ∧
      mergeQueueStep r = resolveSuccessBuild r.success_env pr b) ∨
    (∃ l pr b, r.prs = Except.ok l ∧ (sort_queue_prs l).head? = some pr ∧
      pr.auto_build = some b ∧
      (b.status = BuildStatus.Failure ∨ b.status = BuildStatus.Cancelled ∨
        b.status = BuildStatus.Timeouted) ∧
      mergeQueueStep r = ⟨StepOutcome.panicked, []⟩) ∨
    (∃ l pr, r.prs = Except.ok l ∧ (sort_queue_prs l).head? = some pr ∧
      pr.auto_build = none ∧ mergeQueueStep r = noBuildStep r.no_build_env pr) := by
  by_cases hcool : r.in_cooldown = true
  · exact Or.inl (by unfold mergeQueueStep; rw [if_pos hcool])
  · have hcool2 : r.in_cooldown = false := by simpa using hcool
    rcases hdb : r.repo_db with e | o
    · exact Or.inr (Or.inr (Or.inl ⟨e, by unfold mergeQueueStep; rw [hcool2, hdb]; simp⟩))
    · cases o with
      | none => exact Or.inl (by unfold mergeQueueStep; rw [hcool2, hdb]; simp)
      | some rm =>
        by_cases hen : r.merge_queue_enabled = true
        · rcases hprs : r.prs with e | l
          · exact Or.inr (Or.inr (Or.inl
              ⟨e, by unfold mergeQueueStep; rw [hcool2, hdb, hprs]; simp [hen]⟩))
          · rcases hsel : (sort_queue_prs l).head? with _ | pr
            · exact Or.inr (Or.inl
                (by unfold mergeQueueStep; rw [hcool2, hdb, hprs]; simp [hen, hsel]))
            · rcases hab : pr.auto_build with _ | b
              · exact Or.inr (Or.inr (Or.inr (Or.inr (Or.inr ⟨l, pr, rfl, hsel, hab,
                  mergeQueueStep_no_build r rm l pr hcool2 hdb hen hprs hsel hab⟩))))
              · rcases hst : b.status with _ | _ | _ | _ | _
                · exact Or.inl
                    (mergeQueueStep_pending_build r rm l pr b hcool2 hdb hen hprs hsel hab hst)
                · exact Or.inr (Or.inr (Or.inr (Or.inl ⟨l, pr, b, rfl, hsel, hab, hst,
                    mergeQueueStep_success_build r rm l pr b hcool2 hdb hen hprs hsel hab hst⟩)))
                · exact Or.inr (Or.inr (Or.inr (Or.inr (Or.inl
                    ⟨l, pr, b, rfl, hsel, hab, Or.inl hst, by
                      unfold mergeQueueStep
                      rw [hcool2, hdb, hprs]
                      simp [hen, hsel, hab, hst]⟩))))
                · exact Or.inr (Or.inr (Or.inr (Or.inr (Or.inl
                    ⟨l, pr, b, rfl, hsel, hab, Or.inr (Or.inl hst), by
                      unfold mergeQueueStep
                      rw [hcool2, hdb, hprs]
                      simp [hen, hsel, hab, hst]⟩))))
                · exact Or.inr (Or.inr (Or.inr (Or.inr (Or.inl
                    ⟨l, pr, b, rfl, hsel, hab, Or.inr (Or.inr hst), by
                      unfold mergeQueueStep
                      rw [hcool2, hdb, hprs]
                      simp [hen, hsel, hab, hst]⟩))))
        · have hen2 : r.merge_queue_enabled = false := by simpa using hen
          exact Or.inl (by unfold mergeQueueStep; rw [hcool2, hdb]; simp [hen2])

/-- A start-build environment in which every forge/store call succeeds. -/
def okStartEnv : StartBuildEnv :=
  ⟨Except.ok (), Except.ok "merge-0-pr-1", Except.ok (), Except.ok 1, Except.ok 7,
   Except.ok (), Except.ok ()⟩

/-- A success-path environment in which every forge/store call succeeds. -/
def okSuccessEnv : SuccessEnv :=
  ⟨Except.ok [⟨"Workflow1", "url1"⟩], Except.ok (), Except.ok (), Except.ok (),
   Except.ok (), Except.ok (), Except.ok ()⟩

/-- A no-build environment in which every forge/store call succeeds. -/
def okNoBuildEnv : NoBuildEnv :=
  ⟨Except.ok ⟨"pr-1-sha", "user:branch", "body"⟩, Except.ok "main-sha1", okStartEnv,
   Except.ok (), Except.ok (), Except.ok (), Except.ok [], Except.ok (), Except.ok ()⟩

/-- A sample PR on base branch main, parameterised by its build. -/
def samplePr (b : Option Build) : PullRequestModel :=
  ⟨1, "main", some "alice", none, RollupMode.Maybe, "T", b⟩

/-- A successful build row. -/
def successBuild : Build := ⟨"merge-0-pr-1", BuildStatus.Success, some 7⟩

/-- A pending build row. -/
def pendingBuild : Build := ⟨"merge-0-pr-1", BuildStatus.Pending, some 7⟩

/-- A repository input with all gates open (not in cooldown, known in the
store, merge queue enabled). -/
def sampleRepo (l : List PullRequestModel) (se : SuccessEnv) (ne : NoBuildEnv) : RepoInput :=
  ⟨false, Except.ok (some ⟨0⟩), true, Except.ok l, se, ne⟩

/-- Success-path environment whose base push fails with a validation error. -/
def validationFailEnv : SuccessEnv :=
  { okSuccessEnv with set_base_branch := Except.error (BranchUpdateError.ValidationFailed "main" "protected") }

/-- Repository input exercising the validation-failure path. -/
def c1Input : RepoInput :=
  sampleRepo [samplePr (some successBuild)] validationFailEnv okNoBuildEnv

/-- C1 counterexample: at a concrete repository whose selected PR has a
successful build and whose non-force push of the base branch fails with a
validation error, the tick sets the 10-second cooldown but does not mark
the build failure, does not update the check run, and posts no
push-failed comment — contradicting the claim, which asserts all four. -/
theorem c1_counterexample :
    Action.SetCooldown 10 ∈ (mergeQueueStep c1Input).actions ∧
    Action.UpdateBuildStatus BuildStatus.Failure ∉ (mergeQueueStep c1Input).actions ∧
    (mergeQueueStep c1Input).actions.all (fun a => !isUpdateCheckRunAction a) = true ∧
    (mergeQueueStep c1Input).actions.all (fun a => !isPushFailedCommentAction a) = true := by
  refine ⟨?_, ?_, ?_, ?_⟩ <;> decide

/-- C1 (amended): when the selected PR has a successful build and the
non-force fast-forward fails with a validation error, the tick posts the
success comment, attempts the push, sets a 10-second cooldown, and moves
on — it performs no store or check-run mutation and posts no push-failed
comment: the trace is exactly those three items. -/
theorem c1_validation_failure (r : RepoInput) (rm : RepoModel)
    (l : List PullRequestModel) (pr : PullRequestModel) (b : Build)
    (ws : List Workflow) (br msg : String)
    (hcool : r.in_cooldown = false) (hdb : r.repo_db = Except.ok (some rm))
    (hen : r.merge_queue_enabled = true) (hprs : r.prs = Except.ok l)
    (hsel : (sort_queue_prs l).head? = some pr)
    (hb : pr.auto_build = some b) (hst : b.status = BuildStatus.Success)
    (hwf : r.success_env.get_workflows = Except.ok ws)
    (hpc : r.success_env.post_success_comment = Except.ok ())
    (hpush : r.success_env.set_base_branch =
      Except.error (BranchUpdateError.ValidationFailed br msg)) :
    mergeQueueStep r = ⟨StepOutcome.next,
      [successComment pr b ws,
       Action.SetBranchToSha pr.base_branch b.commit_sha ForcePush.No false,
       Action.SetCooldown 10]⟩ :=
  (mergeQueueStep_success_build r rm l pr b hcool hdb hen hprs hsel hb hst).trans
    (resolveSuccessBuild_validation r.success_env pr b ws br msg hwf hpc hpush)

/-- C1 witness: the amended theorem applied at the concrete input. -/
theorem c1_witness :
    mergeQueueStep c1Input = ⟨StepOutcome.next,
      [successComment (samplePr (some successBuild)) successBuild [⟨"Workflow1", "url1"⟩],
       Action.SetBranchToSha (samplePr (some successBuild)).base_branch
         successBuild.commit_sha ForcePush.No false,
       Action.SetCooldown 10]⟩ :=
  c1_validation_failure c1Input ⟨0⟩ [samplePr (some successBuild)]
    (samplePr (some successBuild)) successBuild [⟨"Workflow1", "url1"⟩] "main" "protected"
    rfl rfl rfl rfl rfl rfl rfl rfl rfl rfl

/-- Repository whose eligible-PR query returns an empty list. -/
def c2RepoEmpty : RepoInput := sampleRepo [] okSuccessEnv okNoBuildEnv

/-- Repository with one eligible PR and no build, which would start an
auto build when processed. -/
def c2RepoSecond : RepoInput := sampleRepo [samplePr none] okSuccessEnv okNoBuildEnv

/-- C2: evaluating the tick at two repositories where the first has an
empty queue: the source returns Ok from the whole tick (let-else with
return Ok at merge_queue.rs line 96), so the second repository is never
entered — its per-repository trace is absent — although processing it
would have attempted actions. Every other guard in the loop uses
continue, so the claim (and spec) describe the evident intent. -/
theorem c2_empty_queue_ends_tick :
    merge_queue_tick [c2RepoEmpty, c2RepoSecond] = ⟨TickOutcome.ok, [[]]⟩ ∧
    (mergeQueueStep c2RepoSecond).actions ≠ [] := by
  refine ⟨rfl, ?_⟩
  decide

/-- Repository whose success-build push fails with an unclassified error
and whose push-failed comment post fails as well. -/
def c3Input : RepoInput :=
  sampleRepo [samplePr (some successBuild)]
    ({ okSuccessEnv with
        set_base_branch := Except.error (BranchUpdateError.Custom "IO error"),
        post_push_failed_comment := Except.error "comment failed" })
    okNoBuildEnv

/-- C3 counterexample: a failed push-failed-comment post makes the whole
tick return an error after the first repository: with a second
repository present, the trace has a single entry, so the failed comment
post does prevent processing of the remaining repositories, contradicting
the claim. -/
theorem c3_counterexample :
    (merge_queue_tick [c3Input, c2RepoSecond]).outcome = TickOutcome.err "comment failed" ∧
    (merge_queue_tick [c3Input, c2RepoSecond]).trace.length = 1 := by
  exact ⟨rfl, rfl⟩

/-- C3 (amended): a forge error outside the auto-build-start taxonomy
propagates out of the tick as an error and ends it: a failed push-failed
comment post aborts the tick (keeping, not rolling back, the build
failure already recorded), and a failed get_pull_request aborts the tick
likewise; in both cases the remaining repositories are not processed. -/
theorem c3_forge_error_aborts_tick :
    (∀ (r : RepoInput) (rest : List RepoInput) (rm : RepoModel)
        (l : List PullRequestModel) (pr : PullRequestModel) (b : Build)
        (ws : List Workflow) (m e : String) (cid : Int),
      r.in_cooldown = false → r.repo_db = Except.ok (some rm) →
      r.merge_queue_enabled = true → r.prs = Except.ok l →
      (sort_queue_prs l).head? = some pr → pr.auto_build = some b →
      b.status = BuildStatus.Success →
      r.success_env.get_workflows = Except.ok ws →
      r.success_env.post_success_comment = Except.ok () →
      r.success_env.set_base_branch = Except.error (BranchUpdateError.Custom m) →
      b.check_run_id = some cid →
      r.success_env.update_build_status = Except.ok () →
      r.success_env.post_push_failed_comment = Except.error e →
      merge_queue_tick (r :: rest) =
        ⟨TickOutcome.err e, [(mergeQueueStep r).actions]⟩ ∧
      Action.UpdateBuildStatus BuildStatus.Failure ∈ (mergeQueueStep r).actions) ∧
    (∀ (r : RepoInput) (rest : List RepoInput) (rm : RepoModel)
        (l : List PullRequestModel) (pr : PullRequestModel) (e : String),
      r.in_cooldown = false → r.repo_db = Except.ok (some rm) →
      r.merge_queue_enabled = true → r.prs = Except.ok l →
      (sort_queue_prs l).head? = some pr → pr.auto_build = none →
      r.no_build_env.get_pull_request = Except.error e →
      merge_queue_tick (r :: rest) = ⟨TickOutcome.err e, [[]]⟩) := by
  constructor
  · intro r rest rm l pr b ws m e cid h1 h2 h3 h4 h5 h6 h7 h8 h9 h10 h11 h12 h13
    have hr : mergeQueueStep r = ⟨StepOutcome.fail e,
        [successComment pr b ws,
         Action.SetBranchToSha pr.base_branch b.commit_sha ForcePush.No false,
         Action.UpdateCheckRun cid CheckRunStatus.Completed (some CheckRunConclusion.Failure),
         Action.UpdateBuildStatus BuildStatus.Failure,
         Action.PostComment pr.number
           (Comment.AutoBuildPushFailed (BranchUpdateError.Custom m))]⟩ :=
      (mergeQueueStep_success_build r rm l pr b h1 h2 h3 h4 h5 h6 h7).trans
        (resolveSuccessBuild_custom_comment_fail r.success_env pr b ws m e cid
          h8 h9 h10 h11 h12 h13)
    constructor
    · unfold merge_queue_tick
      rw [hr]
    · rw [hr]
      simp
  · intro r rest rm l pr e h1 h2 h3 h4 h5 h6 h7
    have hr : mergeQueueStep r = ⟨StepOutcome.fail e, []⟩ := by
      rw [mergeQueueStep_no_build r rm l pr h1 h2 h3 h4 h5 h6]
      simp [noBuildStep, h7]
    unfold merge_queue_tick
    rw [hr]

/-- C3 witness: part one of the amended theorem applied at the concrete
input (alone in the repository list). -/
theorem c3_witness :
    merge_queue_tick [c3Input] =
      ⟨TickOutcome.err "comment failed", [(mergeQueueStep c3Input).actions]⟩ ∧
    Action.UpdateBuildStatus BuildStatus.Failure ∈ (mergeQueueStep c3Input).actions :=
  c3_forge_error_aborts_tick.1 c3Input [] ⟨0⟩ [samplePr (some successBuild)]
    (samplePr (some successBuild)) successBuild [⟨"Workflow1", "url1"⟩]
    "IO error" "comment failed" 7
    rfl rfl rfl rfl rfl rfl rfl rfl rfl rfl rfl rfl rfl

/-- C4: single flight. First, when the PR selected by the sort policy has
a pending build, the iteration ends with no attempted effect at all
(the queue is blocked and the tick moves to the next repository).
Second, whenever any PR in the query result has a pending build, the
sort policy places a build-carrying PR first, so the iteration never
creates a build row: at most one pending build can exist per
repository. -/
theorem c4_single_flight :
    (∀ (r : RepoInput) (rm : RepoModel) (l : List PullRequestModel)
        (pr : PullRequestModel) (b : Build),
      r.in_cooldown = false → r.repo_db = Except.ok (some rm) →
      r.merge_queue_enabled = true → r.prs = Except.ok l →
      (sort_queue_prs l).head? = some pr → pr.auto_build = some b →
      b.status = BuildStatus.Pending →
      mergeQueueStep r = ⟨StepOutcome.next, []⟩) ∧
    (∀ (r : RepoInput) (l : List PullRequestModel),
      r.prs = Except.ok l →
      (∃ p ∈ l, ∃ bb, p.auto_build = some bb ∧ bb.status = BuildStatus.Pending) →
      ∀ a ∈ (mergeQueueStep r).actions, isAttachAction a = false) := by
  constructor
  · intro r rm l pr b h1 h2 h3 h4 h5 h6 h7
    exact mergeQueueStep_pending_build r rm l pr b h1 h2 h3 h4 h5 h6 h7
  · intro r l hprs hex a ha
    rcases mergeQueueStep_cases r with hc | hc | ⟨e, hc⟩ |
      ⟨l2, pr, b, hprs2, hsel, hab, hst, hc⟩ |
      ⟨l2, pr, b, hprs2, hsel, hab, hst, hc⟩ |
      ⟨l2, pr, hprs2, hsel, hab, hc⟩
    · rw [hc] at ha; simp at ha
    · rw [hc] at ha; simp at ha
    · rw [hc] at ha; simp at ha
    · rw [hc] at ha
      exact (resolveSuccessBuild_no_attach_no_panic r.success_env pr b).1 a ha
    · rw [hc] at ha; simp at ha
    · exfalso
      rw [hprs] at hprs2
      injection hprs2 with hl
      subst hl
      rcases hex with ⟨p, hp, bb, hpb, hps⟩
      have h0 : buildPhase pr = 0 :=
        head_buildPhase_zero ⟨p, hp, buildPhase_zero_of_pending hpb hps⟩ hsel
      rcases buildPhase_zero_build h0 with ⟨b2, hb2, _⟩
      rw [hab] at hb2
      cases hb2

/-- Repository input whose selected PR has a pending build. -/
def c4Input : RepoInput := sampleRepo [samplePr (some pendingBuild)] okSuccessEnv okNoBuildEnv

/-- C4 witness: both parts applied at a concrete repository whose single
eligible PR has a pending build. -/
theorem c4_witness :
    mergeQueueStep c4Input = ⟨StepOutcome.next, []⟩ ∧
    (∀ a ∈ (mergeQueueStep c4Input).actions, isAttachAction a = false) :=
  ⟨c4_single_flight.1 c4Input ⟨0⟩ [samplePr (some pendingBuild)]
      (samplePr (some pendingBuild)) pendingBuild rfl rfl rfl rfl rfl rfl rfl,
   c4_single_flight.2 c4Input [samplePr (some pendingBuild)] rfl
     ⟨samplePr (some pendingBuild), List.mem_singleton.mpr rfl, pendingBuild, rfl, rfl⟩⟩

/-- Repository whose successful build cannot be pushed (unclassified
error) and whose subsequent store update of the build status fails. -/
def c5CexInput : RepoInput :=
  sampleRepo [samplePr (some successBuild)]
    ({ okSuccessEnv with
        set_base_branch := Except.error (BranchUpdateError.Custom "boom"),
        update_build_status := Except.error "db down" })
    okNoBuildEnv

/-- C5 counterexample: a 60-second cooldown is set in an execution in
which the push of the base branch failed (the push
outcome given by the environment is an unclassified error), so the 60-second cooldown is not
restricted to store failures after a successful push as the claim
states — it also covers the failure to update the build status after a
failed push. -/
theorem c5_counterexample :
    Action.SetCooldown 60 ∈ (mergeQueueStep c5CexInput).actions ∧
    c5CexInput.success_env.set_base_branch =
      Except.error (BranchUpdateError.Custom "boom") := by
  refine ⟨?_, rfl⟩
  decide

/-- C5 (amended): every cooldown the engine sets is 5, 10 or 60 seconds,
with these exact triggers: 5 on a fast-forward conflict, 10 on a push
validation failure, and 60 on a store failure in the success-build
resolution path — either failing to mark the PR merged after a
successful push, or failing to mark the build failed after a push that
failed with an unclassified error; conversely each trigger sets its
cooldown. -/
theorem c5_cooldown_durations :
    (∀ (r : RepoInput) (s : Nat),
      Action.SetCooldown s ∈ (mergeQueueStep r).actions →
      (s = 5 ∧ ∃ br, r.success_env.set_base_branch =
          Except.error (BranchUpdateError.FastForwardConflict br)) ∨
      (s = 10 ∧ ∃ br m, r.success_env.set_base_branch =
          Except.error (BranchUpdateError.ValidationFailed br m)) ∨
      (s = 60 ∧ ((r.success_env.set_base_branch = Except.ok () ∧
            ∃ e, r.success_env.set_pr_merged = Except.error e) ∨
          (∃ m, r.success_env.set_base_branch =
              Except.error (BranchUpdateError.Custom m) ∧
            ∃ e, r.success_env.update_build_status = Except.error e)))) ∧
    (∀ (r : RepoInput) (rm : RepoModel) (l : List PullRequestModel)
        (pr : PullRequestModel) (b : Build) (ws : List Workflow) (br : String),
      r.in_cooldown = false → r.repo_db = Except.ok (some rm) →
      r.merge_queue_enabled = true → r.prs = Except.ok l →
      (sort_queue_prs l).head? = some pr → pr.auto_build = some b →
      b.status = BuildStatus.Success →
      r.success_env.get_workflows = Except.ok ws →
      r.success_env.post_success_comment = Except.ok () →
      r.success_env.set_base_branch =
        Except.error (BranchUpdateError.FastForwardConflict br) →
      Action.SetCooldown 5 ∈ (mergeQueueStep r).actions) ∧
    (∀ (r : RepoInput) (rm : RepoModel) (l : List PullRequestModel)
        (pr : PullRequestModel) (b : Build) (ws : List Workflow) (br m : String),
      r.in_cooldown = false → r.repo_db = Except.ok (some rm) →
      r.merge_queue_enabled = true → r.prs = Except.ok l →
      (sort_queue_prs l).head? = some pr → pr.auto_build = some b →
      b.status = BuildStatus.Success →
      r.success_env.get_workflows = Except.ok ws →
      r.success_env.post_success_comment = Except.ok () →
      r.success_env.set_base_branch =
        Except.error (BranchUpdateError.ValidationFailed br m) →
      Action.SetCooldown 10 ∈ (mergeQueueStep r).actions) ∧
    (∀ (r : RepoInput) (rm : RepoModel) (l : List PullRequestModel)
        (pr : PullRequestModel) (b : Build) (ws : List Workflow) (e : String),
      r.in_cooldown = false → r.repo_db = Except.ok (some rm) →
      r.merge_queue_enabled = true → r.prs = Except.ok l →
      (sort_queue_prs l).head? = some pr → pr.auto_build = some b →
      b.status = BuildStatus.Success →
      r.success_env.get_workflows = Except.ok ws →
      r.success_env.post_success_comment = Except.ok () →
      r.success_env.set_base_branch = Except.ok () →
      r.success_env.set_pr_merged = Except.error e →
      Action.SetCooldown 60 ∈ (mergeQueueStep r).actions) ∧
    (∀ (r : RepoInput) (rm : RepoModel) (l : List PullRequestModel)
        (pr : PullRequestModel) (b : Build) (ws : List Workflow) (m e : String)
        (cid : Int),
      r.in_cooldown = false → r.repo_db = Except.ok (some rm) →
      r.merge_queue_enabled = true → r.prs = Except.ok l →
      (sort_queue_prs l).head? = some pr → pr.auto_build = some b →
      b.status = BuildStatus.Success →
      r.success_env.get_workflows = Except.ok ws →
      r.success_env.post_success_comment = Except.ok () →
      r.success_env.set_base_branch = Except.error (BranchUpdateError.Custom m) →
      b.check_run_id = some cid →
      r.success_env.update_build_status = Except.error e →
      Action.SetCooldown 60 ∈ (mergeQueueStep r).actions) := by
  refine ⟨?_, ?_, ?_, ?_, ?_⟩
  · intro r s hmem
    rcases mergeQueueStep_cases r with hc | hc | ⟨e, hc⟩ |
      ⟨l2, pr, b, hprs2, hsel, hab, hst, hc⟩ |
      ⟨l2, pr, b, hprs2, hsel, hab, hst, hc⟩ |
      ⟨l2, pr, hprs2, hsel, hab, hc⟩
    · rw [hc] at hmem; simp at hmem
    · rw [hc] at hmem; simp at hmem
    · rw [hc] at hmem; simp at hmem
    · rw [hc] at hmem
      exact resolveSuccessBuild_cooldown r.success_env pr b s hmem
    · rw [hc] at hmem; simp at hmem
    · rw [hc] at hmem
      have hfalse := (noBuildStep_no_cooldown_no_panic r.no_build_env pr).1 _ hmem
      simp [isCooldownAction] at hfalse
  · intro r rm l pr b ws br h1 h2 h3 h4 h5 h6 h7 h8 h9 h10
    rw [(mergeQueueStep_success_build r rm l pr b h1 h2 h3 h4 h5 h6 h7).trans
      (resolveSuccessBuild_ffconflict r.success_env pr b ws br h8 h9 h10)]
    simp
  · intro r rm l pr b ws br m h1 h2 h3 h4 h5 h6 h7 h8 h9 h10
    rw [(mergeQueueStep_success_build r rm l pr b h1 h2 h3 h4 h5 h6 h7).trans
      (resolveSuccessBuild_validation r.success_env pr b ws br m h8 h9 h10)]
    simp
  · intro r rm l pr b ws e h1 h2 h3 h4 h5 h6 h7 h8 h9 h10 h11
    rw [(mergeQueueStep_success_build r rm l pr b h1 h2 h3 h4 h5 h6 h7).trans
      (resolveSuccessBuild_merged_store_fail r.success_env pr b ws e h8 h9 h10 h11)]
    simp
  · intro r rm l pr b ws m e cid h1 h2 h3 h4 h5 h6 h7 h8 h9 h10 h11 h12
    rw [(mergeQueueStep_success_build r rm l pr b h1 h2 h3 h4 h5 h6 h7).trans
      (resolveSuccessBuild_custom_store_fail r.success_env pr b ws m e cid
        h8 h9 h10 h11 h12)]
    simp

/-- C5 witness: the last backward part applied at the concrete input
where the base push failed and the build-status store update failed. -/
theorem c5_witness :
    Action.SetCooldown 60 ∈ (mergeQueueStep c5CexInput).actions :=
  c5_cooldown_durations.2.2.2.2 c5CexInput ⟨0⟩ [samplePr (some successBuild)]
    (samplePr (some successBuild)) successBuild [⟨"Workflow1", "url1"⟩]
    "boom" "db down" 7 rfl rfl rfl rfl rfl rfl rfl rfl rfl rfl rfl rfl

/-- C6: on FailedToRecordBuild the iteration cancels the in-progress and
queued workflow runs observed for the merge SHA (when the listing call
succeeds and yields some), force-pushes the CI branch back to the base
SHA, posts no comment, and — interpreting the trace on branch heads — at
the end of the iteration the CI branch head equals the base branch head
(given the base branch is neither of the bot branches, the branch read
was consistent, and the reset push succeeds). -/
theorem c6_record_fail_no_orphans (r : RepoInput) (rm : RepoModel)
    (l : List PullRequestModel) (pr : PullRequestModel) (gh : GhPullRequest)
    (bs sha e : String) (runs : List WorkflowRun) (m0 : String → String)
    (hcool : r.in_cooldown = false) (hdb : r.repo_db = Except.ok (some rm))
    (hen : r.merge_queue_enabled = true) (hprs : r.prs = Except.ok l)
    (hsel : (sort_queue_prs l).head? = some pr)
    (hab : pr.auto_build = none)
    (hgp : r.no_build_env.get_pull_request = Except.ok gh)
    (hgb : r.no_build_env.get_branch_sha = Except.ok bs)
    (hsam : r.no_build_env.start.set_auto_merge_branch = Except.ok ())
    (hmb : r.no_build_env.start.merge_branches = Except.ok sha)
    (hsab : r.no_build_env.start.set_auto_branch = Except.ok ())
    (hatt : r.no_build_env.start.attach_auto_build = Except.error e)
    (hwr : r.no_build_env.get_workflow_runs = Except.ok runs)
    (hrst : r.no_build_env.reset_auto_branch = Except.ok ())
    (hb1 : pr.base_branch ≠ AUTO_BRANCH_NAME)
    (hb2 : pr.base_branch ≠ AUTO_MERGE_BRANCH_NAME)
    (hm : m0 pr.base_branch = bs) :
    mergeQueueStep r = ⟨StepOutcome.next,
      [Action.SetBranchToSha AUTO_MERGE_BRANCH_NAME bs ForcePush.Yes true,
       Action.MergeBranches AUTO_MERGE_BRANCH_NAME gh.head_sha
         (autoMergeCommitMessage pr gh) (some sha),
       Action.SetBranchToSha AUTO_BRANCH_NAME sha ForcePush.Yes true,
       Action.AttachAutoBuild pr.number AUTO_BRANCH_NAME sha bs] ++
      (let ids := (runs.filter
          (fun w => w.status == "in_progress" || w.status == "queued")).map (fun w => w.id)
        if ids.isEmpty then [] else [Action.CancelWorkflows ids]) ++
      [Action.SetBranchToSha AUTO_BRANCH_NAME bs ForcePush.Yes true]⟩ ∧
    (∀ a ∈ (mergeQueueStep r).actions, isCommentAction a = false) ∧
    applyActions m0 (mergeQueueStep r).actions AUTO_BRANCH_NAME =
      applyActions m0 (mergeQueueStep r).actions pr.base_branch := by
  have hr := (mergeQueueStep_no_build r rm l pr hcool hdb hen hprs hsel hab).trans
    (noBuildStep_record_fail r.no_build_env pr gh bs sha e runs
      hgp hgb hsam hmb hsab hatt hwr hrst)
  refine ⟨hr, ?_, ?_⟩
  · intro a ha
    rw [hr] at ha
    dsimp only at ha
    by_cases hids : ((runs.filter
        (fun w => w.status == "in_progress" || w.status == "queued")).map
          (fun w => w.id)).isEmpty = true
    · rw [if_pos hids] at ha
      simp at ha
      rcases ha with ha | ha | ha | ha | ha <;> subst ha <;> simp [isCommentAction]
    · rw [if_neg hids] at ha
      simp at ha
      rcases ha with ha | ha | ha | ha | ha | ha <;> subst ha <;> simp [isCommentAction]
  · rw [hr]
    dsimp only
    by_cases hids : ((runs.filter
        (fun w => w.status == "in_progress" || w.status == "queued")).map
          (fun w => w.id)).isEmpty = true
    · rw [if_pos hids]
      simp [applyActions, applyAction, AUTO_BRANCH_NAME, AUTO_MERGE_BRANCH_NAME, hm,
        fun h => hb1 h, fun h => hb2 h]
      simp only [AUTO_BRANCH_NAME, AUTO_MERGE_BRANCH_NAME] at hb1 hb2
      simp [hb1, hb2, hm]
    · rw [if_neg hids]
      simp [applyActions, applyAction, AUTO_BRANCH_NAME, AUTO_MERGE_BRANCH_NAME, hm,
        fun h => hb1 h, fun h => hb2 h]
      simp only [AUTO_BRANCH_NAME, AUTO_MERGE_BRANCH_NAME] at hb1 hb2
      simp [hb1, hb2, hm]

/-- Repository input exercising the FailedToRecordBuild rollback path,
with one in-progress and one completed workflow run observed. -/
def c6Input : RepoInput :=
  sampleRepo [samplePr none] okSuccessEnv
    ({ okNoBuildEnv with
        start := { okStartEnv with attach_auto_build := Except.error "db down" },
        get_workflow_runs := Except.ok [⟨10, "in_progress"⟩, ⟨11, "completed"⟩, ⟨12, "queued"⟩] })

/-- C6 witness: the theorem applied at the concrete input, with branch
heads initially all at main-sha1. -/
theorem c6_witness :
    mergeQueueStep c6Input = ⟨StepOutcome.next,
      [Action.SetBranchToSha AUTO_MERGE_BRANCH_NAME "main-sha1" ForcePush.Yes true,
       Action.MergeBranches AUTO_MERGE_BRANCH_NAME "pr-1-sha"
         (autoMergeCommitMessage (samplePr none) ⟨"pr-1-sha", "user:branch", "body"⟩)
         (some "merge-0-pr-1"),
       Action.SetBranchToSha AUTO_BRANCH_NAME "merge-0-pr-1" ForcePush.Yes true,
       Action.AttachAutoBuild 1 AUTO_BRANCH_NAME "merge-0-pr-1" "main-sha1"] ++
      (let ids := (([⟨10, "in_progress"⟩, ⟨11, "completed"⟩,
          ⟨12, "queued"⟩] : List WorkflowRun).filter
          (fun w => w.status == "in_progress" || w.status == "queued")).map (fun w => w.id)
        if ids.isEmpty then [] else [Action.CancelWorkflows ids]) ++
      [Action.SetBranchToSha AUTO_BRANCH_NAME "main-sha1" ForcePush.Yes true]⟩ ∧
    (∀ a ∈ (mergeQueueStep c6Input).actions, isCommentAction a = false) ∧
    applyActions (fun _ => "main-sha1") (mergeQueueStep c6Input).actions AUTO_BRANCH_NAME =
      applyActions (fun _ => "main-sha1") (mergeQueueStep c6Input).actions
        (samplePr none).base_branch :=
  c6_record_fail_no_orphans c6Input ⟨0⟩ [samplePr none] (samplePr none)
    ⟨"pr-1-sha", "user:branch", "body"⟩ "main-sha1" "merge-0-pr-1" "db down"
    [⟨10, "in_progress"⟩, ⟨11, "completed"⟩, ⟨12, "queued"⟩] (fun _ => "main-sha1")
    rfl rfl rfl rfl rfl rfl rfl rfl rfl rfl rfl rfl rfl rfl (by decide) (by decide) rfl

/-- C7: on a trial-merge conflict the iteration first updates the PR
mergeable state to has-conflicts in the store and then posts the
conflict comment carrying the PR head SHA; the exact trace shows the
order and that no build row is attached. -/
theorem c7_conflict_marks_then_comments (r : RepoInput) (rm : RepoModel)
    (l : List PullRequestModel) (pr : PullRequestModel) (gh : GhPullRequest)
    (bs : String)
    (hcool : r.in_cooldown = false) (hdb : r.repo_db = Except.ok (some rm))
    (hen : r.merge_queue_enabled = true) (hprs : r.prs = Except.ok l)
    (hsel : (sort_queue_prs l).head? = some pr)
    (hab : pr.auto_build = none)
    (hgp : r.no_build_env.get_pull_request = Except.ok gh)
    (hgb : r.no_build_env.get_branch_sha = Except.ok bs)
    (hsam : r.no_build_env.start.set_auto_merge_branch = Except.ok ())
    (hmb : r.no_build_env.start.merge_branches = Except.error MergeError.Conflict)
    (hupm : r.no_build_env.start.update_pr_mergeable_state = Except.ok ())
    (hpcc : r.no_build_env.post_conflict_comment = Except.ok ()) :
    mergeQueueStep r = ⟨StepOutcome.next,
      [Action.SetBranchToSha AUTO_MERGE_BRANCH_NAME bs ForcePush.Yes true,
       Action.MergeBranches AUTO_MERGE_BRANCH_NAME gh.head_sha
         (autoMergeCommitMessage pr gh) none,
       Action.UpdatePrMergeableState pr.number MergeableState.HasConflicts,
       Action.PostComment pr.number (Comment.MergeConflict gh.head_sha)]⟩ ∧
    (∀ a ∈ (mergeQueueStep r).actions, isAttachAction a = false) := by
  have hr := (mergeQueueStep_no_build r rm l pr hcool hdb hen hprs hsel hab).trans
    (noBuildStep_conflict r.no_build_env pr gh bs hgp hgb hsam hmb hupm hpcc)
  refine ⟨hr, ?_⟩
  intro a ha
  rw [hr] at ha
  simp at ha
  rcases ha with ha | ha | ha | ha <;> subst ha <;> simp [isAttachAction]

/-- Repository input whose trial merge conflicts. -/
def c7Input : RepoInput :=
  sampleRepo [samplePr none] okSuccessEnv
    ({ okNoBuildEnv with
        start := { okStartEnv with merge_branches := Except.error MergeError.Conflict } })

/-- C7 witness: the theorem applied at the concrete conflicting input. -/
theorem c7_witness :
    mergeQueueStep c7Input = ⟨StepOutcome.next,
      [Action.SetBranchToSha AUTO_MERGE_BRANCH_NAME "main-sha1" ForcePush.Yes true,
       Action.MergeBranches AUTO_MERGE_BRANCH_NAME "pr-1-sha"
         (autoMergeCommitMessage (samplePr none) ⟨"pr-1-sha", "user:branch", "body"⟩) none,
       Action.UpdatePrMergeableState 1 MergeableState.HasConflicts,
       Action.PostComment 1 (Comment.MergeConflict "pr-1-sha")]⟩ ∧
    (∀ a ∈ (mergeQueueStep c7Input).actions, isAttachAction a = false) :=
  c7_conflict_marks_then_comments c7Input ⟨0⟩ [samplePr none] (samplePr none)
    ⟨"pr-1-sha", "user:branch", "body"⟩ "main-sha1"
    rfl rfl rfl rfl rfl rfl rfl rfl rfl rfl rfl rfl

/-- C10: if marking the PR as conflicted in the store fails after a
trial-merge conflict, the iteration still posts the same merge-conflict
comment on the PR head, and no build row is attached: the trace is
identical to the one of the successful store update. -/
theorem c10_mark_fail_still_comments (r : RepoInput) (rm : RepoModel)
    (l : List PullRequestModel) (pr : PullRequestModel) (gh : GhPullRequest)
    (bs e : String)
    (hcool : r.in_cooldown = false) (hdb : r.repo_db = Except.ok (some rm))
    (hen : r.merge_queue_enabled = true) (hprs : r.prs = Except.ok l)
    (hsel : (sort_queue_prs l).head? = some pr)
    (hab : pr.auto_build = none)
    (hgp : r.no_build_env.get_pull_request = Except.ok gh)
    (hgb : r.no_build_env.get_branch_sha = Except.ok bs)
    (hsam : r.no_build_env.start.set_auto_merge_branch = Except.ok ())
    (hmb : r.no_build_env.start.merge_branches = Except.error MergeError.Conflict)
    (hupm : r.no_build_env.start.update_pr_mergeable_state = Except.error e)
    (hpcc : r.no_build_env.post_conflict_comment = Except.ok ()) :
    mergeQueueStep r = ⟨StepOutcome.next,
      [Action.SetBranchToSha AUTO_MERGE_BRANCH_NAME bs ForcePush.Yes true,
       Action.MergeBranches AUTO_MERGE_BRANCH_NAME gh.head_sha
         (autoMergeCommitMessage pr gh) none,
       Action.UpdatePrMergeableState pr.number MergeableState.HasConflicts,
       Action.PostComment pr.number (Comment.MergeConflict gh.head_sha)]⟩ ∧
    (∀ a ∈ (mergeQueueStep r).actions, isAttachAction a = false) := by
  have hr := (mergeQueueStep_no_build r rm l pr hcool hdb hen hprs hsel hab).trans
    (noBuildStep_conflict_mark_fail r.no_build_env pr gh bs e hgp hgb hsam hmb hupm hpcc)
  refine ⟨hr, ?_⟩
  intro a ha
  rw [hr] at ha
  simp at ha
  rcases ha with ha | ha | ha | ha <;> subst ha <;> simp [isAttachAction]

/-- Repository input whose trial merge conflicts and whose store update
of the mergeable state fails. -/
def c10Input : RepoInput :=
  sampleRepo [samplePr none] okSuccessEnv
    ({ okNoBuildEnv with
        start := { okStartEnv with
          merge_branches := Except.error MergeError.Conflict,
          update_pr_mergeable_state := Except.error "db down" } })

/-- C10 witness: the theorem applied at the concrete input. -/
theorem c10_witness :
    mergeQueueStep c10Input = ⟨StepOutcome.next,
      [Action.SetBranchToSha AUTO_MERGE_BRANCH_NAME "main-sha1" ForcePush.Yes true,
       Action.MergeBranches AUTO_MERGE_BRANCH_NAME "pr-1-sha"
         (autoMergeCommitMessage (samplePr none) ⟨"pr-1-sha", "user:branch", "body"⟩) none,
       Action.UpdatePrMergeableState 1 MergeableState.HasConflicts,
       Action.PostComment 1 (Comment.MergeConflict "pr-1-sha")]⟩ ∧
    (∀ a ∈ (mergeQueueStep c10Input).actions, isAttachAction a = false) :=
  c10_mark_fail_still_comments c10Input ⟨0⟩ [samplePr none] (samplePr none)
    ⟨"pr-1-sha", "user:branch", "body"⟩ "main-sha1" "db down"
    rfl rfl rfl rfl rfl rfl rfl rfl rfl rfl rfl rfl

/-- C8: the attempt-merge sub-routine first force-pushes the base SHA
onto the staging branch automation/bors/auto-merge, and only then asks
the forge to merge the head into that branch with the given message;
it returns the merge SHA on success, the Conflict sentinel on
MergeError::Conflict, and an error otherwise (including when the
initial force-push fails, in which case the merge is never attempted). -/
theorem c8_attempt_merge_contract :
    AUTO_MERGE_BRANCH_NAME = "automation/bors/auto-merge" ∧
    (∀ (env : StartBuildEnv) (hd bs mm : String),
      ∃ ok, (attempt_merge env hd bs mm).2.head? =
        some (Action.SetBranchToSha AUTO_MERGE_BRANCH_NAME bs ForcePush.Yes ok)) ∧
    (∀ (env : StartBuildEnv) (hd bs mm sha : String),
      env.set_auto_merge_branch = Except.ok () →
      env.merge_branches = Except.ok sha →
      attempt_merge env hd bs mm =
        (Except.ok (MergeResult.Success sha),
         [Action.SetBranchToSha AUTO_MERGE_BRANCH_NAME bs ForcePush.Yes true,
          Action.MergeBranches AUTO_MERGE_BRANCH_NAME hd mm (some sha)])) ∧
    (∀ (env : StartBuildEnv) (hd bs mm : String),
      env.set_auto_merge_branch = Except.ok () →
      env.merge_branches = Except.error MergeError.Conflict →
      attempt_merge env hd bs mm =
        (Except.ok MergeResult.Conflict,
         [Action.SetBranchToSha AUTO_MERGE_BRANCH_NAME bs ForcePush.Yes true,
          Action.MergeBranches AUTO_MERGE_BRANCH_NAME hd mm none])) ∧
    (∀ (env : StartBuildEnv) (hd bs mm m : String),
      env.set_auto_merge_branch = Except.ok () →
      env.merge_branches = Except.error (MergeError.Other m) →
      attempt_merge env hd bs mm =
        (Except.error (AttemptMergeErr.MergeFailed m),
         [Action.SetBranchToSha AUTO_MERGE_BRANCH_NAME bs ForcePush.Yes true,
          Action.MergeBranches AUTO_MERGE_BRANCH_NAME hd mm none])) ∧
    (∀ (env : StartBuildEnv) (hd bs mm : String) (e : BranchUpdateError),
      env.set_auto_merge_branch = Except.error e →
      attempt_merge env hd bs mm =
        (Except.error (AttemptMergeErr.CannotSetAutoMergeBranch bs e),
         [Action.SetBranchToSha AUTO_MERGE_BRANCH_NAME bs ForcePush.Yes false])) := by
  refine ⟨rfl, ?_, ?_, ?_, ?_, ?_⟩
  · intro env hd bs mm
    rcases env with ⟨sab, mb, sbr, aab, ccr, ubc, upm⟩
    cases sab with
    | error e => exact ⟨false, rfl⟩
    | ok u =>
      cases u
      cases mb with
      | ok sha => exact ⟨true, rfl⟩
      | error me => cases me <;> exact ⟨true, rfl⟩
  · intro env hd bs mm sha h1 h2
    simp [attempt_merge, h1, h2]
  · intro env hd bs mm h1 h2
    simp [attempt_merge, h1, h2]
  · intro env hd bs mm m h1 h2
    simp [attempt_merge, h1, h2]
  · intro env hd bs mm e h1
    simp [attempt_merge, h1]

/-- C8 witness: the success part applied at the all-succeeding
environment with concrete SHAs and message. -/
theorem c8_witness :
    attempt_merge okStartEnv "pr-1-sha" "main-sha1" "msg" =
      (Except.ok (MergeResult.Success "merge-0-pr-1"),
       [Action.SetBranchToSha AUTO_MERGE_BRANCH_NAME "main-sha1" ForcePush.Yes true,
        Action.MergeBranches AUTO_MERGE_BRANCH_NAME "pr-1-sha" "msg"
          (some "merge-0-pr-1")]) :=
  c8_attempt_merge_contract.2.2.1 okStartEnv "pr-1-sha" "main-sha1" "msg"
    "merge-0-pr-1" rfl rfl

/-- The store contract of get_merge_queue_prs: any build carried by a
returned PR is pending or successful. -/
def prStoreContract (p : PullRequestModel) : Prop :=
  ∀ b, p.auto_build = some b →
    b.status = BuildStatus.Pending ∨ b.status = BuildStatus.Success

/-- C9: when every PR returned by the store query satisfies the store
contract (its build, if any, is pending or successful), the tick never
reaches the unreachable branch for failed, cancelled or timed-out
builds: the tick outcome is never the panic of that branch. -/
theorem c9_unreachable_branch (repos : List RepoInput)
    (h : ∀ r ∈ repos, ∀ l, r.prs = Except.ok l → ∀ p ∈ l, prStoreContract p) :
    (merge_queue_tick repos).outcome ≠ TickOutcome.panicked := by
  induction repos with
  | nil => simp [merge_queue_tick]
  | cons r rs ih =>
    have hstep : (mergeQueueStep r).outcome ≠ StepOutcome.panicked := by
      rcases mergeQueueStep_cases r with hc | hc | ⟨e, hc⟩ |
        ⟨l, pr, b, hprs, hsel, hab, hst, hc⟩ |
        ⟨l, pr, b, hprs, hsel, hab, hst, hc⟩ |
        ⟨l, pr, hprs, hsel, hab, hc⟩
      · rw [hc]; simp
      · rw [hc]; simp
      · rw [hc]; simp
      · rw [hc]
        exact (resolveSuccessBuild_no_attach_no_panic r.success_env pr b).2
      · exfalso
        have hmem := head_mem_sort hsel
        have hcon := h r (List.mem_cons_self _ _) l hprs pr hmem b hab
        rcases hcon with hx | hx <;> rcases hst with h1 | h1 | h1 <;>
          rw [hx] at h1 <;> cases h1
      · rw [hc]
        exact (noBuildStep_no_cooldown_no_panic r.no_build_env pr).2
    unfold merge_queue_tick
    dsimp only
    rcases ho : (mergeQueueStep r).outcome with _ | _ | e | _
    · dsimp only
      exact ih (fun r2 hr2 => h r2 (List.mem_cons_of_mem _ hr2))
    · simp
    · simp
    · exact absurd ho hstep

/-- C9 witness: the theorem applied at a concrete repository list whose
only PR has no build (vacuously satisfying the contract). -/
theorem c9_witness :
    (merge_queue_tick [c2RepoSecond]).outcome ≠ TickOutcome.panicked :=
  c9_unreachable_branch [c2RepoSecond] (by
    intro r hr l hl p hp
    rw [List.mem_singleton] at hr
    subst hr
    have hl2 : l = [samplePr none] := by
      have hx := hl
      simp [c2RepoSecond, sampleRepo] at hx
      exact hx.symm
    subst hl2
    rw [List.mem_singleton] at hp
    subst hp
    intro b hb
    simp [samplePr] at hb)

end Bors
